import Mathlib

/-!
Verification of the Azure DevOps CLI tool's efficiency/state-tracking core
(`classes/state_transition_stack.py`, `classes/efficiency_calculator.py`,
`classes/WorkItemOperations.py`) as a shallow embedding.

Modelling conventions:
* Timestamps are local wall-clock instants at minute granularity
  (`LocalDT`), days counted from an epoch whose day 0 is a Monday; the
  source's timezone conversion to `America/Mexico_City` is the identity in
  this model (every instant is already expressed in the local timezone).
* Python `float` arithmetic is modelled by exact rationals; `round(x, n)`
  is modelled by round-half-up at `n` decimals (`round2`, `round1`) — at
  the minute granularity used here no value ever sits on a rounding tie,
  so this agrees with Python's float rounding for all inputs considered.
* Python dicts keyed by state names are association lists preserving
  insertion order; `dict.get` with defaults is mirrored field by field.
-/

/-- ASCII lowering of one character, as Python's `str.lower()` acts on the
ASCII state names this tool deals with. -/
def py_lower_char (c : Char) : Char :=
  if 65 ≤ c.toNat ∧ c.toNat ≤ 90 then Char.ofNat (c.toNat + 32) else c

/-- Python's `str.lower()` (ASCII range). -/
def py_lower (s : String) : String := ⟨s.data.map py_lower_char⟩

/-- Round-half-up to two decimals, mirroring `round(x, 2)` on the exact
rational value. -/
def round2 (q : ℚ) : ℚ := (⌊q * 100 + 1/2⌋ : ℤ) / 100

/-- Round-half-up to one decimal, mirroring `round(x, 1)`. -/
def round1 (q : ℚ) : ℚ := (⌊q * 10 + 1/2⌋ : ℤ) / 10

/-- A local wall-clock instant: `day` counts days since an epoch whose day
0 is a Monday, `minute` is the minute within the day (0 ≤ minute < 1440
for well-formed instants). -/
structure LocalDT where
  day : ℕ
  minute : ℕ
deriving DecidableEq, Repr

/-- Total minutes since the epoch; instants compare by this value. -/
def LocalDT.toMin (t : LocalDT) : ℕ := t.day * 1440 + t.minute

/-- State-category configuration (`state_config` dict: the four lists,
each defaulting to `[]`). -/
structure StateConfig where
  productive_states : List String
  pause_stopper_states : List String
  completion_states : List String
  ignored_states : List String
deriving DecidableEq

/-- Office-hours configuration of `WorkItemStateStack.__init__`
(`office_start`/`office_end` stored as times, here as hours; the timezone
is the identity in this model) together with the optional timeframe
bounds. -/
structure OfficeConfig where
  office_start_hour : ℕ
  office_end_hour : ℕ
  max_hours_per_day : ℚ
  timeframe_start_dt : Option LocalDT
  timeframe_end_dt : Option LocalDT
deriving DecidableEq

/-- `_calculate_office_hours_in_day`: overlap (in hours) of the minute
interval `[ds, de)` of one day with the office window. -/
def calculate_office_hours_in_day (cfg : OfficeConfig) (ds de : ℕ) : ℚ :=
  let effective_start := max ds (cfg.office_start_hour * 60)
  let effective_end := min de (cfg.office_end_hour * 60)
  if effective_start < effective_end then
    ((effective_end - effective_start : ℕ) : ℚ) / 60
  else 0

/-- One iteration of the day loop of `_calculate_business_hours_in_period`:
the contribution of day `d` of the period from `s` to `e`.  `_get_day_boundaries`
clamps the day to the period (midnight / end of day on interior days), weekends
contribute nothing, and the daily cap applies unless `count_all_hours`. -/
def day_contribution (cfg : OfficeConfig) (s e : LocalDT) (count_all_hours : Bool)
    (d : ℕ) : ℚ :=
  if d % 7 ≥ 5 then 0
  else
    let day_start : ℕ := if d = s.day then s.minute else 0
    let day_end : ℕ := if d = e.day then e.minute else 1440
    if day_start < day_end then
      let office_hours := calculate_office_hours_in_day cfg day_start day_end
      if count_all_hours then office_hours else min office_hours cfg.max_hours_per_day
    else 0

/-- The un-rounded total of the day loop of
`_calculate_business_hours_in_period`. -/
def business_hours_sum (cfg : OfficeConfig) (s e : LocalDT) (count_all_hours : Bool) : ℚ :=
  ∑ d ∈ Finset.Icc s.day e.day, day_contribution cfg s e count_all_hours d

/-- `_calculate_business_hours_in_period`: 0 for an empty period, else the
day-loop total rounded to two decimals. -/
def calculate_business_hours_in_period (cfg : OfficeConfig) (s e : LocalDT)
    (count_all_hours : Bool) : ℚ :=
  if s.toMin < e.toMin then round2 (business_hours_sum cfg s e count_all_hours) else 0

/-- `_apply_timeframe_filtering`: clip the period to the configured
timeframe. -/
def apply_timeframe_filtering (cfg : OfficeConfig) (s e : LocalDT) : LocalDT × LocalDT :=
  let filtered_start :=
    match cfg.timeframe_start_dt with
    | some t => if s.toMin < t.toMin then t else s
    | none => s
  let filtered_end :=
    match cfg.timeframe_end_dt with
    | some t => if t.toMin < e.toMin then t else e
    | none => e
  (filtered_start, filtered_end)

/-- A recorded state transition (`StateTransition`); `time_in_state` is
kept in hours (the source stores a `timedelta(hours=...)`). -/
structure StateTransitionRec where
  state : String
  timestamp : LocalDT
  reason : String
  changed_by : String
  revision : ℕ
  time_in_state : ℚ
deriving DecidableEq

/-- The mutable state of `WorkItemStateStack`. -/
structure WorkItemStateStack where
  transitions : List StateTransitionRec
  time_accumulator : List (String × ℚ)
  paused_time_accumulator : List (String × ℚ)
  current_state : Option String
  entry_time : Option LocalDT
  office : OfficeConfig
  productive_states : List String
  pause_stopper_states : List String
  completion_states : List String
  ignored_states : List String
  total_productive_hours : ℚ
  total_paused_hours : ℚ
  total_calendar_minutes : ℤ
  was_reopened : Bool
  active_after_reopen_hours : ℚ
  is_completed : Bool
  should_ignore : Bool
deriving DecidableEq

/-- `WorkItemStateStack.__init__`. -/
def init_stack (office : OfficeConfig) (sc : StateConfig) : WorkItemStateStack :=
  { transitions := []
    time_accumulator := []
    paused_time_accumulator := []
    current_state := none
    entry_time := none
    office := office
    productive_states := sc.productive_states
    pause_stopper_states := sc.pause_stopper_states
    completion_states := sc.completion_states
    ignored_states := sc.ignored_states
    total_productive_hours := 0
    total_paused_hours := 0
    total_calendar_minutes := 0
    was_reopened := false
    active_after_reopen_hours := 0
    is_completed := false
    should_ignore := false }

/-- Add `v` to key `k` of a Python dict modelled as an insertion-ordered
association list (`if k not in d: d[k] = 0` followed by `d[k] += v`). -/
def acc_add (l : List (String × ℚ)) (k : String) (v : ℚ) : List (String × ℚ) :=
  match l with
  | [] => [(k, v)]
  | (k0, v0) :: rest => if k0 = k then (k0, v0 + v) :: rest else (k0, v0) :: acc_add rest k v

/-- Sum of the values of an accumulator dict. -/
def acc_sum (l : List (String × ℚ)) : ℚ := (l.map Prod.snd).sum

/-- `self.transitions[-1].time_in_state = timedelta(hours=t)`. -/
def update_last_time : List StateTransitionRec → ℚ → List StateTransitionRec
  | [], _ => []
  | [t], v => [{ t with time_in_state := v }]
  | t :: rest, v => t :: update_last_time rest v

/-- `_calculate_time_in_state`: timeframe filtering plus capped business
hours for productive states, all office hours for the rest. -/
def calculate_time_in_state (st : WorkItemStateStack) (s e : LocalDT)
    (state : String) : ℚ :=
  if state ∈ st.productive_states then
    let fp := apply_timeframe_filtering st.office s e
    if fp.2.toMin ≤ fp.1.toMin then 0
    else calculate_business_hours_in_period st.office fp.1 fp.2 false
  else
    calculate_business_hours_in_period st.office s e true

/-- The `if self.current_state and self.entry_time:` block of `push_state`:
close the open interval of the current state into the accumulators, update
the last transition and the calendar total, and detect the
completion-to-productive reopen pattern. -/
def close_current_interval (st1 : WorkItemStateStack) (new_state : String)
    (timestamp : LocalDT) : WorkItemStateStack :=
  match st1.current_state, st1.entry_time with
  | some cur, some entry =>
    -- Python truthiness: an empty-string current state skips the block
    if cur = "" then st1
    else
      let t := calculate_time_in_state st1 entry timestamp cur
      let sta :=
        if cur ∈ st1.productive_states then
          { st1 with
            time_accumulator := acc_add st1.time_accumulator cur t
            total_productive_hours := st1.total_productive_hours + t
            active_after_reopen_hours :=
              if st1.was_reopened then st1.active_after_reopen_hours + t
              else st1.active_after_reopen_hours }
        else if cur ∈ st1.pause_stopper_states then
          { st1 with
            paused_time_accumulator := acc_add st1.paused_time_accumulator cur t
            total_paused_hours := st1.total_paused_hours + t }
        else
          { st1 with time_accumulator := acc_add st1.time_accumulator cur t }
      let stb := { sta with
        transitions := update_last_time sta.transitions t
        total_calendar_minutes :=
          sta.total_calendar_minutes + ((timestamp.toMin : ℤ) - (entry.toMin : ℤ)) }
      if cur ∈ stb.completion_states ∧ new_state ∈ stb.productive_states then
        { stb with was_reopened := true }
      else stb
  | _, _ => st1

/-- `push_state`: ignore-state poisoning, completion flagging, closing the
open interval of the current state into the accumulators, reopen
detection, then pushing the new transition. -/
def push_state (st : WorkItemStateStack) (new_state : String) (timestamp : LocalDT)
    (reason : String) (changed_by : String) (revision : ℕ) : WorkItemStateStack :=
  if new_state ∈ st.ignored_states then { st with should_ignore := true }
  else
    let st1 := if new_state ∈ st.completion_states then { st with is_completed := true } else st
    let st2 := close_current_interval st1 new_state timestamp
    { st2 with
      transitions := st2.transitions ++
        [{ state := new_state, timestamp := timestamp, reason := reason,
           changed_by := changed_by, revision := revision, time_in_state := 0 }]
      current_state := some new_state
      entry_time := some timestamp }

/-- A revision record from the Azure DevOps API (`revision_history`
entries); `changed_date = none` models a missing/empty `changed_date`
string. -/
structure RevisionRecord where
  revision : ℕ
  changed_date : Option LocalDT
  state : String
  reason : String
  changed_by : String
deriving DecidableEq

/-- The body of the revision loop of `from_revision_history`: records with
an empty `changed_date` are skipped. -/
def revision_step (stack : WorkItemStateStack) (rev : RevisionRecord) : WorkItemStateStack :=
  match rev.changed_date with
  | some ts => push_state stack rev.state ts rev.reason rev.changed_by rev.revision
  | none => stack

/-- `from_revision_history`: sort the revisions by revision number, then
replay them onto a fresh stack. -/
def from_revision_history (office : OfficeConfig) (sc : StateConfig)
    (revision_history : List RevisionRecord) : WorkItemStateStack :=
  let sorted_revisions :=
    revision_history.mergeSort (fun a b => decide (a.revision ≤ b.revision))
  sorted_revisions.foldl revision_step (init_stack office sc)

/-- `should_ignore_work_item`. -/
def should_ignore_work_item (st : WorkItemStateStack) : Bool := st.should_ignore

/-- `get_total_productive_hours`. -/
def get_total_productive_hours (st : WorkItemStateStack) : ℚ := st.total_productive_hours

/-- `get_total_paused_hours`. -/
def get_total_paused_hours (st : WorkItemStateStack) : ℚ := st.total_paused_hours

/-- `get_total_time_all_states`. -/
def get_total_time_all_states (st : WorkItemStateStack) : ℚ :=
  acc_sum st.time_accumulator + acc_sum st.paused_time_accumulator

/-- The dict returned by `get_pattern_summary` when there are transitions.
`states_visited` is `list(set(...))` in the source, whose order is
unspecified; it is modelled as the first-occurrence dedup of the visited
states. -/
structure PatternSummary where
  total_transitions : ℕ
  states_visited : List String
  was_reopened : Bool
  active_after_reopen_hours : ℚ
  total_productive_hours : ℚ
  total_paused_hours : ℚ
  total_calendar_days : ℤ
  is_completed : Bool
  should_ignore : Bool
  productive_states_used : List String
  pause_states_used : List String
deriving DecidableEq

/-- `get_pattern_summary`: `none` models the empty dict returned when no
transitions were recorded.  `timedelta.days` is floor division by one day. -/
def get_pattern_summary (st : WorkItemStateStack) : Option PatternSummary :=
  if st.transitions = [] then none
  else some
    { total_transitions := st.transitions.length
      states_visited := (st.transitions.map (·.state)).dedup
      was_reopened := st.was_reopened
      active_after_reopen_hours := st.active_after_reopen_hours
      total_productive_hours := st.total_productive_hours
      total_paused_hours := st.total_paused_hours
      total_calendar_days := Int.fdiv st.total_calendar_minutes 1440
      is_completed := st.is_completed
      should_ignore := st.should_ignore
      productive_states_used :=
        (st.time_accumulator.map Prod.fst).filter (· ∈ st.productive_states)
      pause_states_used := st.paused_time_accumulator.map Prod.fst }

/-- The scoring configuration of `EfficiencyCalculator.__init__` (flattened
from the nested dict; one field per leaf). `office_start_hour` and
`office_end_hour` are the values `self.config.get('office_start_hour', 9)`
and `self.config.get('office_end_hour', 17)` resolve to. -/
structure ScoringConfig where
  completion_bonus_percentage : ℚ
  max_efficiency_cap : ℚ
  max_hours_per_day : ℚ
  very_early_days : ℚ
  early_days : ℚ
  slightly_early_days : ℚ
  score_very_early : ℚ
  score_early : ℚ
  score_slightly_early : ℚ
  score_on_time : ℚ
  bonus_very_early : ℚ
  bonus_early : ℚ
  bonus_slightly_early : ℚ
  score_late_1_3 : ℚ
  score_late_4_7 : ℚ
  score_late_8_14 : ℚ
  score_late_15_plus : ℚ
  mitigation_late_1_3 : ℚ
  mitigation_late_4_7 : ℚ
  mitigation_late_8_14 : ℚ
  mitigation_late_15_plus : ℚ
  weight_fair_efficiency : ℚ
  weight_delivery_score : ℚ
  weight_completion_rate : ℚ
  weight_on_time_delivery : ℚ
  hours_user_story : ℚ
  hours_task : ℚ
  hours_bug : ℚ
  hours_default : ℚ
  office_start_hour : ℕ
  office_end_hour : ℕ
deriving DecidableEq

/-- The default `self.config` dict of `EfficiencyCalculator`. -/
def default_scoring_config : ScoringConfig :=
  { completion_bonus_percentage := 1/5
    max_efficiency_cap := 150
    max_hours_per_day := 8
    very_early_days := 7
    early_days := 3
    slightly_early_days := 1
    score_very_early := 130
    score_early := 120
    score_slightly_early := 110
    score_on_time := 100
    bonus_very_early := 1
    bonus_early := 1/2
    bonus_slightly_early := 1/4
    score_late_1_3 := 90
    score_late_4_7 := 80
    score_late_8_14 := 70
    score_late_15_plus := 60
    mitigation_late_1_3 := 2
    mitigation_late_4_7 := 4
    mitigation_late_8_14 := 6
    mitigation_late_15_plus := 8
    weight_fair_efficiency := 2/5
    weight_delivery_score := 3/10
    weight_completion_rate := 1/5
    weight_on_time_delivery := 1/10
    hours_user_story := 8
    hours_task := 4
    hours_bug := 2
    hours_default := 4
    office_start_hour := 9
    office_end_hour := 17 }

/-- A work item as read by the efficiency calculator; the date fields are
the parsed ISO timestamps (`none` models a missing or unparsable value). -/
structure WorkItem where
  state : String
  original_estimate : Option ℚ
  start_date : Option LocalDT
  target_date : Option LocalDT
  closed_date : Option LocalDT
  work_item_type : String
deriving DecidableEq

/-- One day of the loop of `_calculate_business_hours_between_dates`
(the calculator's own date-based estimator, office hours hardcoded to
9:00–17:00, i.e. minutes 540–1020). -/
def estimate_day_contribution (cfg : ScoringConfig) (s e : LocalDT) (d : ℕ) : ℚ :=
  if d % 7 ≥ 5 then 0
  else if d = s.day ∧ d = e.day then
    let day_start := max s.minute 540
    let day_end := min e.minute 1020
    if day_start < day_end then
      min (((day_end - day_start : ℕ) : ℚ) / 60) cfg.max_hours_per_day
    else 0
  else if d = s.day then
    let day_start := max s.minute 540
    if day_start < 1020 then
      min (((1020 - day_start : ℕ) : ℚ) / 60) cfg.max_hours_per_day
    else 0
  else if d = e.day then
    let day_end := min e.minute 1020
    if 540 < day_end then
      min (((day_end - 540 : ℕ) : ℚ) / 60) cfg.max_hours_per_day
    else 0
  else cfg.max_hours_per_day

/-- `_calculate_business_hours_between_dates`. -/
def calculate_business_hours_between_dates (cfg : ScoringConfig) (s e : LocalDT) : ℚ :=
  if s.toMin < e.toMin then
    round2 (∑ d ∈ Finset.Icc s.day e.day, estimate_day_contribution cfg s e d)
  else 0

/-- `self.config['default_work_item_hours'].get(work_item_type, ...)` on
the lowercased type. -/
def default_hours_for_type (cfg : ScoringConfig) (t : String) : ℚ :=
  if t = "user story" then cfg.hours_user_story
  else if t = "task" then cfg.hours_task
  else if t = "bug" then cfg.hours_bug
  else cfg.hours_default

/-- The fallback chain of `_calculate_estimated_time_from_work_item` after
the `original_estimate` check: date-based estimate (minimum 2 hours), then
type defaults. -/
def estimated_time_fallback (cfg : ScoringConfig) (wi : WorkItem) : ℚ :=
  match wi.start_date, wi.target_date with
  | some s, some t => max (calculate_business_hours_between_dates cfg s t) 2
  | _, _ => default_hours_for_type cfg (py_lower wi.work_item_type)

/-- `_calculate_estimated_time_from_work_item`. -/
def calculate_estimated_time_from_work_item (cfg : ScoringConfig) (wi : WorkItem) : ℚ :=
  match wi.original_estimate with
  | some v => if 0 < v then v else estimated_time_fallback cfg wi
  | none => estimated_time_fallback cfg wi

/-- The dict returned by `_calculate_delivery_timing` and its two
helpers. -/
structure DeliveryMetrics where
  delivery_score : ℚ
  timing_bonus_hours : ℚ
  late_penalty_mitigation : ℚ
  days_difference : ℚ
deriving DecidableEq

/-- `_calculate_early_delivery_bonus`. -/
def calculate_early_delivery_bonus (cfg : ScoringConfig) (days_difference : ℚ) : DeliveryMetrics :=
  if days_difference ≤ -cfg.very_early_days then
    { delivery_score := cfg.score_very_early
      timing_bonus_hours := |days_difference| * cfg.bonus_very_early
      late_penalty_mitigation := 0
      days_difference := round1 days_difference }
  else if days_difference ≤ -cfg.early_days then
    { delivery_score := cfg.score_early
      timing_bonus_hours := |days_difference| * cfg.bonus_early
      late_penalty_mitigation := 0
      days_difference := round1 days_difference }
  else if days_difference ≤ -cfg.slightly_early_days then
    { delivery_score := cfg.score_slightly_early
      timing_bonus_hours := |days_difference| * cfg.bonus_slightly_early
      late_penalty_mitigation := 0
      days_difference := round1 days_difference }
  else
    { delivery_score := cfg.score_on_time
      timing_bonus_hours := 0
      late_penalty_mitigation := 0
      days_difference := round1 days_difference }

/-- `_calculate_late_delivery_penalty`. -/
def calculate_late_delivery_penalty (cfg : ScoringConfig) (days_difference : ℚ) : DeliveryMetrics :=
  if days_difference ≤ 3 then
    { delivery_score := cfg.score_late_1_3
      timing_bonus_hours := 0
      late_penalty_mitigation := cfg.mitigation_late_1_3
      days_difference := round1 days_difference }
  else if days_difference ≤ 7 then
    { delivery_score := cfg.score_late_4_7
      timing_bonus_hours := 0
      late_penalty_mitigation := cfg.mitigation_late_4_7
      days_difference := round1 days_difference }
  else if days_difference ≤ 14 then
    { delivery_score := cfg.score_late_8_14
      timing_bonus_hours := 0
      late_penalty_mitigation := cfg.mitigation_late_8_14
      days_difference := round1 days_difference }
  else
    { delivery_score := cfg.score_late_15_plus
      timing_bonus_hours := 0
      late_penalty_mitigation := cfg.mitigation_late_15_plus
      days_difference := round1 days_difference }

/-- `_calculate_delivery_timing`: `(closed - target).total_seconds() / 86400`
in days, early/late split at zero; missing dates give the neutral record. -/
def calculate_delivery_timing (cfg : ScoringConfig) (wi : WorkItem) : DeliveryMetrics :=
  match wi.target_date, wi.closed_date with
  | some target, some closed =>
    let days_difference : ℚ := ((closed.toMin : ℚ) - (target.toMin : ℚ)) / 1440
    if days_difference ≤ 0 then calculate_early_delivery_bonus cfg days_difference
    else calculate_late_delivery_penalty cfg days_difference
  | _, _ =>
    { delivery_score := 100
      timing_bonus_hours := 0
      late_penalty_mitigation := 0
      days_difference := 0 }

/-- The `stack_summary` entry of the returned metrics dict: the empty dict,
the literal `{"should_ignore": True}` of `_ignored_work_item_metrics`, or a
full pattern summary. -/
inductive StackSummary
  | empty
  | ignored_marker
  | full (ps : PatternSummary)
deriving DecidableEq

/-- Python truthiness of the `stack_summary` dict (empty dict is falsy). -/
def stack_summary_truthy : StackSummary → Bool
  | .empty => false
  | _ => true

/-- The dict returned by `calculate_fair_efficiency_metrics` (and by
`_empty_efficiency_metrics` / `_ignored_work_item_metrics`). -/
structure EfficiencyMetrics where
  active_time_hours : ℚ
  paused_time_hours : ℚ
  total_time_hours : ℚ
  estimated_time_hours : ℚ
  efficiency_percentage : ℚ
  fair_efficiency_score : ℚ
  delivery_score : ℚ
  completion_bonus : ℚ
  delivery_timing_bonus : ℚ
  days_ahead_behind : ℚ
  state_breakdown : List (String × ℚ)
  paused_state_breakdown : List (String × ℚ)
  was_reopened : Bool
  active_after_reopen : ℚ
  is_completed : Bool
  should_ignore : Bool
  stack_summary : StackSummary
deriving DecidableEq

/-- `_empty_efficiency_metrics`. -/
def empty_efficiency_metrics : EfficiencyMetrics :=
  { active_time_hours := 0
    paused_time_hours := 0
    total_time_hours := 0
    estimated_time_hours := 0
    efficiency_percentage := 0
    fair_efficiency_score := 0
    delivery_score := 0
    completion_bonus := 0
    delivery_timing_bonus := 0
    days_ahead_behind := 0
    state_breakdown := []
    paused_state_breakdown := []
    was_reopened := false
    active_after_reopen := 0
    is_completed := false
    should_ignore := false
    stack_summary := .empty }

/-- `_ignored_work_item_metrics`. -/
def ignored_work_item_metrics : EfficiencyMetrics :=
  { empty_efficiency_metrics with
    should_ignore := true
    stack_summary := .ignored_marker }

/-- The default `state_config` dict used by
`calculate_fair_efficiency_metrics` when none is provided. -/
def default_state_config : StateConfig :=
  { productive_states := ["Active", "In Progress", "Development", "Code Review", "Testing"]
    pause_stopper_states := ["Stopper", "Blocked", "On Hold", "Waiting"]
    completion_states := ["Resolved", "Closed", "Done"]
    ignored_states := ["Removed", "Discarded", "Cancelled"] }

/-- The `office_hours_config` dict `calculate_fair_efficiency_metrics`
builds from its scoring config (no timeframe is passed). -/
def office_config_of (cfg : ScoringConfig) : OfficeConfig :=
  { office_start_hour := cfg.office_start_hour
    office_end_hour := cfg.office_end_hour
    max_hours_per_day := cfg.max_hours_per_day
    timeframe_start_dt := none
    timeframe_end_dt := none }

/-- `create_stack_from_work_item` (the work-item data is passed through but
unused; the office-hours config is supplied by the caller here, so the
`None` default branch is not taken). -/
def create_stack_from_work_item (state_history : List RevisionRecord)
    (sc : StateConfig) (office : OfficeConfig) : WorkItemStateStack :=
  from_revision_history office sc state_history

/-- `calculate_fair_efficiency_metrics`. -/
def calculate_fair_efficiency_metrics (cfg : ScoringConfig) (wi : WorkItem)
    (state_history : List RevisionRecord) (state_config : Option StateConfig) :
    EfficiencyMetrics :=
  if state_history.length < 2 then empty_efficiency_metrics
  else
    let sc := state_config.getD default_state_config
    let state_stack := create_stack_from_work_item state_history sc (office_config_of cfg)
    if should_ignore_work_item state_stack then ignored_work_item_metrics
    else
      let productive_hours := get_total_productive_hours state_stack
      let paused_hours := get_total_paused_hours state_stack
      let total_hours := get_total_time_all_states state_stack
      let pattern_summary := get_pattern_summary state_stack
      let estimated_hours := calculate_estimated_time_from_work_item cfg wi
      let delivery_metrics := calculate_delivery_timing cfg wi
      let is_completed := py_lower wi.state ∈ ["closed", "done", "resolved"]
      let completion_bonus :=
        if is_completed then estimated_hours * cfg.completion_bonus_percentage else 0
      let numerator := productive_hours + completion_bonus + delivery_metrics.timing_bonus_hours
      let denominator := estimated_hours + delivery_metrics.late_penalty_mitigation
      let fair_efficiency :=
        if 0 < denominator then min (numerator / denominator * 100) cfg.max_efficiency_cap
        else 0
      let traditional_efficiency :=
        if 0 < total_hours - paused_hours then
          productive_hours / (total_hours - paused_hours) * 100
        else 0
      { active_time_hours := round2 productive_hours
        paused_time_hours := round2 paused_hours
        total_time_hours := round2 total_hours
        estimated_time_hours := round2 estimated_hours
        efficiency_percentage := round2 traditional_efficiency
        fair_efficiency_score := round2 fair_efficiency
        delivery_score := round2 delivery_metrics.delivery_score
        completion_bonus := round2 completion_bonus
        delivery_timing_bonus := round2 delivery_metrics.timing_bonus_hours
        days_ahead_behind := delivery_metrics.days_difference
        state_breakdown := state_stack.time_accumulator
        paused_state_breakdown := state_stack.paused_time_accumulator
        was_reopened := (pattern_summary.map (·.was_reopened)).getD false
        active_after_reopen :=
          round2 ((pattern_summary.map (·.active_after_reopen_hours)).getD 0)
        is_completed := (pattern_summary.map (·.is_completed)).getD false
        should_ignore := (pattern_summary.map (·.should_ignore)).getD false
        stack_summary :=
          match pattern_summary with
          | none => .empty
          | some ps => .full ps }

/-- `calculate_developer_score`. -/
def calculate_developer_score (cfg : ScoringConfig) (completion_rate avg_fair_efficiency
    avg_delivery_score on_time_delivery : ℚ) : ℚ :=
  round2 (avg_fair_efficiency * cfg.weight_fair_efficiency
    + avg_delivery_score * cfg.weight_delivery_score
    + completion_rate * cfg.weight_completion_rate
    + min 100 on_time_delivery * cfg.weight_on_time_delivery)

/-- Python truthiness of `any(efficiency_data.values())` for the metrics
dict, field by field in dict order: numbers are truthy iff nonzero, dicts
iff nonempty, booleans as themselves. -/
def any_values_truthy (m : EfficiencyMetrics) : Bool :=
  decide (m.active_time_hours ≠ 0) || decide (m.paused_time_hours ≠ 0)
    || decide (m.total_time_hours ≠ 0) || decide (m.estimated_time_hours ≠ 0)
    || decide (m.efficiency_percentage ≠ 0) || decide (m.fair_efficiency_score ≠ 0)
    || decide (m.delivery_score ≠ 0) || decide (m.completion_bonus ≠ 0)
    || decide (m.delivery_timing_bonus ≠ 0) || decide (m.days_ahead_behind ≠ 0)
    || decide (m.state_breakdown ≠ []) || decide (m.paused_state_breakdown ≠ [])
    || m.was_reopened || decide (m.active_after_reopen ≠ 0)
    || m.is_completed || m.should_ignore
    || stack_summary_truthy m.stack_summary

/-- A work item as seen by `_calculate_developer_metrics`;
`efficiency = none` models a missing `'efficiency'` key (the `{}`
default). -/
structure DeveloperWorkItem where
  state : String
  work_item_type : String
  project_name : String
  efficiency : Option EfficiencyMetrics
deriving DecidableEq

/-- The `delivery_timing_counts` dict. -/
structure DeliveryTimingCounts where
  early : ℕ
  on_time : ℕ
  late_1_3 : ℕ
  late_4_7 : ℕ
  late_8_14 : ℕ
  late_15_plus : ℕ
deriving DecidableEq

/-- The running totals of the item loop of `_calculate_developer_metrics`. -/
structure DeveloperAcc where
  completed_items : ℕ
  items_with_efficiency : ℕ
  on_time_count : ℕ
  total_fair_efficiency : ℚ
  total_delivery_score : ℚ
  total_active_hours : ℚ
  total_estimated_hours : ℚ
  total_days_ahead_behind : ℚ
  reopened_items : ℕ
  work_item_types : List String
  projects : List String
  delivery_timing_counts : DeliveryTimingCounts
deriving DecidableEq

/-- The zero-initialised accumulators. -/
def init_developer_acc : DeveloperAcc :=
  { completed_items := 0
    items_with_efficiency := 0
    on_time_count := 0
    total_fair_efficiency := 0
    total_delivery_score := 0
    total_active_hours := 0
    total_estimated_hours := 0
    total_days_ahead_behind := 0
    reopened_items := 0
    work_item_types := []
    projects := []
    delivery_timing_counts :=
      { early := 0, on_time := 0, late_1_3 := 0, late_4_7 := 0, late_8_14 := 0,
        late_15_plus := 0 } }

/-- `set.add` on a Python set modelled as a first-insertion-ordered list. -/
def set_insert (l : List String) (s : String) : List String :=
  if s ∈ l then l else l ++ [s]

/-- One iteration of the item loop of `_calculate_developer_metrics`. -/
def developer_item_step (acc : DeveloperAcc) (item : DeveloperWorkItem) : DeveloperAcc :=
  let acc := { acc with
    work_item_types := set_insert acc.work_item_types item.work_item_type
    projects := set_insert acc.projects item.project_name }
  let acc :=
    if py_lower item.state ∈ ["closed", "done", "resolved"] then
      { acc with completed_items := acc.completed_items + 1 }
    else acc
  match item.efficiency with
  | none => acc
  | some m =>
    if any_values_truthy m then
      let acc := { acc with
        items_with_efficiency := acc.items_with_efficiency + 1
        total_fair_efficiency := acc.total_fair_efficiency + m.fair_efficiency_score
        total_delivery_score := acc.total_delivery_score + m.delivery_score
        total_active_hours := acc.total_active_hours + m.active_time_hours
        total_estimated_hours := acc.total_estimated_hours + m.estimated_time_hours
        total_days_ahead_behind := acc.total_days_ahead_behind + m.days_ahead_behind }
      let acc :=
        if m.was_reopened then { acc with reopened_items := acc.reopened_items + 1 }
        else acc
      let days_diff := m.days_ahead_behind
      let tc := acc.delivery_timing_counts
      if days_diff ≤ 0 then
        let acc :=
          if days_diff ≤ -1 then
            { acc with delivery_timing_counts := { tc with early := tc.early + 1 } }
          else
            { acc with delivery_timing_counts := { tc with on_time := tc.on_time + 1 } }
        { acc with on_time_count := acc.on_time_count + 1 }
      else if days_diff ≤ 3 then
        { acc with delivery_timing_counts := { tc with late_1_3 := tc.late_1_3 + 1 } }
      else if days_diff ≤ 7 then
        { acc with delivery_timing_counts := { tc with late_4_7 := tc.late_4_7 + 1 } }
      else if days_diff ≤ 14 then
        { acc with delivery_timing_counts := { tc with late_8_14 := tc.late_8_14 + 1 } }
      else
        { acc with delivery_timing_counts := { tc with late_15_plus := tc.late_15_plus + 1 } }
    else acc

/-- The whole item loop of `_calculate_developer_metrics`. -/
def developer_metrics_loop (work_items : List DeveloperWorkItem) : DeveloperAcc :=
  work_items.foldl developer_item_step init_developer_acc

/-- The dict returned by `_calculate_developer_metrics`. -/
structure DeveloperMetrics where
  total_work_items : ℕ
  completed_items : ℕ
  completion_rate : ℚ
  on_time_delivery_percentage : ℚ
  average_fair_efficiency : ℚ
  average_delivery_score : ℚ
  overall_developer_score : ℚ
  total_active_hours : ℚ
  total_estimated_hours : ℚ
  average_days_ahead_behind : ℚ
  reopened_items_handled : ℕ
  reopened_rate : ℚ
  work_item_types_count : ℕ
  work_item_types : List String
  projects_count : ℕ
  projects : List String
  delivery_timing_breakdown : DeliveryTimingCounts
deriving DecidableEq

/-- `_empty_developer_metrics`. -/
def empty_developer_metrics (total_assigned_items : Option ℕ) : DeveloperMetrics :=
  { total_work_items := total_assigned_items.getD 0
    completed_items := 0
    completion_rate := 0
    on_time_delivery_percentage := 0
    average_fair_efficiency := 0
    average_delivery_score := 0
    overall_developer_score := 0
    total_active_hours := 0
    total_estimated_hours := 0
    average_days_ahead_behind := 0
    reopened_items_handled := 0
    reopened_rate := 0
    work_item_types_count := 0
    work_item_types := []
    projects_count := 0
    projects := []
    delivery_timing_breakdown :=
      { early := 0, on_time := 0, late_1_3 := 0, late_4_7 := 0, late_8_14 := 0,
        late_15_plus := 0 } }

/-- `_calculate_developer_metrics`. -/
def calculate_developer_metrics (cfg : ScoringConfig)
    (work_items : List DeveloperWorkItem) (total_assigned_items : Option ℕ) :
    DeveloperMetrics :=
  if work_items = [] then empty_developer_metrics total_assigned_items
  else
    let total_items := total_assigned_items.getD work_items.length
    let acc := developer_metrics_loop work_items
    let completion_rate : ℚ :=
      if 0 < total_items then (acc.completed_items : ℚ) / total_items * 100 else 0
    let on_time_delivery : ℚ :=
      if 0 < acc.items_with_efficiency then
        (acc.on_time_count : ℚ) / acc.items_with_efficiency * 100
      else 0
    let avg_fair_efficiency : ℚ :=
      if 0 < acc.items_with_efficiency then
        acc.total_fair_efficiency / acc.items_with_efficiency
      else 0
    let avg_delivery_score : ℚ :=
      if 0 < acc.items_with_efficiency then
        acc.total_delivery_score / acc.items_with_efficiency
      else 0
    let avg_days_ahead_behind : ℚ :=
      if 0 < acc.items_with_efficiency then
        acc.total_days_ahead_behind / acc.items_with_efficiency
      else 0
    let reopened_rate : ℚ :=
      if 0 < acc.items_with_efficiency then
        (acc.reopened_items : ℚ) / acc.items_with_efficiency * 100
      else 0
    let overall_score := calculate_developer_score cfg completion_rate
      avg_fair_efficiency avg_delivery_score on_time_delivery
    { total_work_items := total_items
      completed_items := acc.completed_items
      completion_rate := round2 completion_rate
      on_time_delivery_percentage := round2 on_time_delivery
      average_fair_efficiency := round2 avg_fair_efficiency
      average_delivery_score := round2 avg_delivery_score
      overall_developer_score := round2 overall_score
      total_active_hours := round2 acc.total_active_hours
      total_estimated_hours := round2 acc.total_estimated_hours
      average_days_ahead_behind := round2 avg_days_ahead_behind
      reopened_items_handled := acc.reopened_items
      reopened_rate := round2 reopened_rate
      work_item_types_count := acc.work_item_types.length
      work_item_types := acc.work_item_types
      projects_count := acc.projects.length
      projects := acc.projects
      delivery_timing_breakdown := acc.delivery_timing_counts }

/-! ### Concrete scenarios used by the claims -/

/-- C1's work item: estimated at 8 hours, currently `Closed`, no
target/closed dates. -/
def wi_c1 : WorkItem :=
  { state := "Closed", original_estimate := some 8, start_date := none,
    target_date := none, closed_date := none, work_item_type := "Task" }

/-- C1's event sequence: `New(Mon 09:00) -> Active(Mon 09:00) ->
Closed(Mon 17:00)` (day 0 is a Monday; 09:00 is minute 540, 17:00 minute
1020). -/
def hist_c1 : List RevisionRecord :=
  [ { revision := 1, changed_date := some ⟨0, 540⟩, state := "New", reason := "",
      changed_by := "" },
    { revision := 2, changed_date := some ⟨0, 540⟩, state := "Active", reason := "",
      changed_by := "" },
    { revision := 3, changed_date := some ⟨0, 1020⟩, state := "Closed", reason := "",
      changed_by := "" } ]

/-- C5's event sequence: `Active(Mon 09:00) -> Closed(Mon 17:00) ->
Active(Tue 09:00) -> Closed(Tue 17:00)`. -/
def hist_c5 : List RevisionRecord :=
  [ { revision := 1, changed_date := some ⟨0, 540⟩, state := "Active", reason := "",
      changed_by := "" },
    { revision := 2, changed_date := some ⟨0, 1020⟩, state := "Closed", reason := "",
      changed_by := "" },
    { revision := 3, changed_date := some ⟨1, 540⟩, state := "Active", reason := "",
      changed_by := "" },
    { revision := 4, changed_date := some ⟨1, 1020⟩, state := "Closed", reason := "",
      changed_by := "" } ]

/-- The office config `calculate_fair_efficiency_metrics` builds from the
default scoring config: 9–17 office hours, 8-hour daily cap, no
timeframe. -/
def default_office_config : OfficeConfig := ⟨9, 17, 8, none, none⟩

/-- An event as fed to `push_state` (one call's arguments). -/
structure PushEvent where
  state : String
  timestamp : LocalDT
  reason : String
  changed_by : String
  revision : ℕ
deriving DecidableEq

/-- Feed a sequence of events to the stack via `push_state`. -/
def record_events (st : WorkItemStateStack) (events : List PushEvent) : WorkItemStateStack :=
  events.foldl (fun s e => push_state s e.state e.timestamp e.reason e.changed_by e.revision) st

lemma close_current_interval_should_ignore (st : WorkItemStateStack) (s : String)
    (ts : LocalDT) : (close_current_interval st s ts).should_ignore = st.should_ignore := by
  unfold close_current_interval
  split <;> simp [apply_ite WorkItemStateStack.should_ignore]

lemma close_current_interval_ignored_states (st : WorkItemStateStack) (s : String)
    (ts : LocalDT) : (close_current_interval st s ts).ignored_states = st.ignored_states := by
  unfold close_current_interval
  split <;> simp [apply_ite WorkItemStateStack.ignored_states]

lemma push_state_should_ignore (st : WorkItemStateStack) (s : String) (ts : LocalDT)
    (r c : String) (n : ℕ) :
    (push_state st s ts r c n).should_ignore
      = (st.should_ignore || decide (s ∈ st.ignored_states)) := by
  unfold push_state
  by_cases h : s ∈ st.ignored_states
  · simp [h]
  · by_cases hc : s ∈ st.completion_states <;>
      simp [h, hc, close_current_interval_should_ignore]

lemma push_state_ignored_states (st : WorkItemStateStack) (s : String) (ts : LocalDT)
    (r c : String) (n : ℕ) :
    (push_state st s ts r c n).ignored_states = st.ignored_states := by
  unfold push_state
  by_cases h : s ∈ st.ignored_states
  · simp [h]
  · by_cases hc : s ∈ st.completion_states <;>
      simp [h, hc, close_current_interval_ignored_states]

/-- The poisoning equation: after replaying a batch of events, the ignore
flag is the old flag or-ed with "some event's state is ignored". -/
lemma record_events_should_ignore (events : List PushEvent) :
    ∀ st : WorkItemStateStack,
      (record_events st events).should_ignore
        = (st.should_ignore || events.any (fun e => decide (e.state ∈ st.ignored_states))) := by
  induction events with
  | nil => intro st; simp [record_events]
  | cons e rest ih =>
    intro st
    show (record_events (push_state st e.state e.timestamp e.reason e.changed_by
      e.revision) rest).should_ignore = _
    rw [ih, push_state_should_ignore, push_state_ignored_states]
    simp [List.any_cons, Bool.or_assoc]

/-! ### Claim theorems -/

set_option maxHeartbeats 3200000 in
/-- Claim C1: for a work item estimated at 8 hours with the two-transition
sequence `New(Mon 09:00) -> Active(Mon 09:00) -> Closed(Mon 17:00)` on a
single business day (office hours 9–17, cap 8 h/day), no target/closed
dates, and current state `Closed`, `calculate_fair_efficiency_metrics`
returns `active_time_hours = 8.0`, `completion_bonus = 1.6` and
`fair_efficiency_score = 120.0` (below the 150 cap, not clamped). -/
theorem c1_single_day_scenario :
    (calculate_fair_efficiency_metrics default_scoring_config wi_c1 hist_c1
      none).active_time_hours = 8 ∧
    (calculate_fair_efficiency_metrics default_scoring_config wi_c1 hist_c1
      none).completion_bonus = 8/5 ∧
    (calculate_fair_efficiency_metrics default_scoring_config wi_c1 hist_c1
      none).fair_efficiency_score = 120 := by
  have hsort : hist_c1.mergeSort (fun a b => decide (a.revision ≤ b.revision)) = hist_c1 :=
    List.mergeSort_of_sorted (by decide)
  refine ⟨?_, ?_, ?_⟩ <;>
  · simp only [calculate_fair_efficiency_metrics, create_stack_from_work_item,
      from_revision_history, hsort, office_config_of, Option.getD]
    simp only [hist_c1, wi_c1, List.foldl_cons, List.foldl_nil, revision_step, push_state,
      close_current_interval,
      init_stack, default_state_config, default_scoring_config,
      should_ignore_work_item, get_total_productive_hours, get_total_paused_hours,
      get_total_time_all_states, get_pattern_summary, acc_sum,
      calculate_estimated_time_from_work_item, calculate_delivery_timing,
      show py_lower "Closed" = "closed" from rfl,
      List.length_cons, List.length_nil, List.mem_cons, List.not_mem_nil, String.reduceEq,
      Option.map, or_false, false_or, or_true, true_or, reduceIte, reduceCtorEq,
      and_true, true_and, and_false, false_and, if_true, if_false,
      Bool.false_eq_true, Bool.true_eq_false]
    norm_num only [calculate_time_in_state, apply_timeframe_filtering,
      calculate_business_hours_in_period, business_hours_sum, day_contribution,
      calculate_office_hours_in_day, acc_add, acc_sum, update_last_time, round2,
      LocalDT.toMin, List.mem_cons, List.not_mem_nil, String.reduceEq, Finset.Icc_self,
      Finset.sum_singleton, Finset.sum_insert, Finset.mem_singleton, List.map,
      or_false, false_or, or_true, true_or, and_true, true_and, and_false, false_and,
      if_true, if_false, reduceIte, min_def, max_def, reduceCtorEq,
      Bool.false_eq_true, Bool.true_eq_false, not_false_iff]

set_option maxHeartbeats 3200000 in
/-- Claim C5: the sequence `Active(Mon 09:00) -> Closed(Mon 17:00) ->
Active(Tue 09:00) -> Closed(Tue 17:00)` (both business days, `Active`
productive, `Closed` a completion state) sets `was_reopened = true` and
accumulates the second Active interval's 8 business hours into
`active_after_reopen_hours`. -/
theorem c5_reopen_detection :
    (from_revision_history default_office_config default_state_config
      hist_c5).was_reopened = true ∧
    (from_revision_history default_office_config default_state_config
      hist_c5).active_after_reopen_hours = 8 := by
  have hsort : hist_c5.mergeSort (fun a b => decide (a.revision ≤ b.revision)) = hist_c5 :=
    List.mergeSort_of_sorted (by decide)
  refine ⟨?_, ?_⟩ <;>
  · unfold from_revision_history
    rw [hsort]
    simp only [hist_c5, List.foldl_cons, List.foldl_nil, revision_step, push_state,
      close_current_interval,
      init_stack, default_state_config, default_office_config,
      List.mem_cons, List.not_mem_nil, String.reduceEq,
      or_false, false_or, or_true, true_or, reduceIte, reduceCtorEq, and_true, true_and,
      and_false, false_and, if_true, if_false, Bool.false_eq_true, Bool.true_eq_false]
    try norm_num only [calculate_time_in_state, apply_timeframe_filtering,
      calculate_business_hours_in_period, business_hours_sum, day_contribution,
      calculate_office_hours_in_day, acc_add, update_last_time, round2, LocalDT.toMin,
      List.mem_cons, List.not_mem_nil, String.reduceEq, Finset.Icc_self,
      Finset.sum_singleton, Finset.sum_insert, Finset.mem_singleton,
      show Finset.Icc (0:ℕ) 1 = {0, 1} from rfl,
      or_false, false_or, or_true, true_or, and_true, true_and,
      and_false, false_and, if_true, if_false, reduceIte, min_def, max_def, reduceCtorEq,
      Bool.false_eq_true, Bool.true_eq_false, not_false_iff]

set_option maxHeartbeats 1600000 in
/-- Claim C8: late-delivery bucketing uses inclusive upper boundaries:
exactly 3 days late lands in the 1–3 bucket (score 90, mitigation 2),
exactly 7 days late in the 4–7 bucket (score 80, mitigation 4), and a
delivery 10 days late — also via `_calculate_delivery_timing` on dates 10
days apart — yields `delivery_score = 70.0` and
`late_penalty_mitigation = 6.0` (the 8–14-day bucket). -/
theorem c8_late_delivery_buckets :
    calculate_late_delivery_penalty default_scoring_config 3 =
      { delivery_score := 90, timing_bonus_hours := 0, late_penalty_mitigation := 2,
        days_difference := 3 } ∧
    calculate_late_delivery_penalty default_scoring_config 7 =
      { delivery_score := 80, timing_bonus_hours := 0, late_penalty_mitigation := 4,
        days_difference := 7 } ∧
    calculate_late_delivery_penalty default_scoring_config 10 =
      { delivery_score := 70, timing_bonus_hours := 0, late_penalty_mitigation := 6,
        days_difference := 10 } ∧
    calculate_delivery_timing default_scoring_config
      { wi_c1 with target_date := some ⟨0, 540⟩, closed_date := some ⟨10, 540⟩ } =
      { delivery_score := 70, timing_bonus_hours := 0, late_penalty_mitigation := 6,
        days_difference := 10 } := by
  refine ⟨?_, ?_, ?_, ?_⟩ <;>
  · norm_num only [calculate_late_delivery_penalty, calculate_delivery_timing,
      calculate_early_delivery_bonus, default_scoring_config, round1, wi_c1,
      LocalDT.toMin, if_true, if_false, reduceIte, DeliveryMetrics.mk.injEq,
      and_true, true_and, not_false_iff]

/-- C6's witness history: two events, both in the ignored set. -/
def hist_c6 : List RevisionRecord :=
  [ ⟨1, some ⟨0, 540⟩, "Removed", "", ""⟩, ⟨2, some ⟨0, 1020⟩, "Removed", "", ""⟩ ]

/-- Claim C9: if any event's state is in the configured ignored set, at any
position of the sequence, then `should_ignore_work_item()` returns true
after all events are recorded. -/
theorem c9_ignore_poisoning (office : OfficeConfig) (sc : StateConfig)
    (events : List PushEvent) (e : PushEvent) (he : e ∈ events)
    (hes : e.state ∈ sc.ignored_states) :
    should_ignore_work_item (record_events (init_stack office sc) events) = true := by
  rw [should_ignore_work_item, record_events_should_ignore]
  simp only [init_stack, Bool.false_or, List.any_eq_true]
  exact ⟨e, he, by simpa using hes⟩

/-- Witness for C9 at a concrete input: a single `Removed` event poisons
the default-configured stack. -/
theorem c9_ignore_poisoning_witness :
    should_ignore_work_item (record_events
      (init_stack default_office_config default_state_config)
      [⟨"Removed", ⟨0, 540⟩, "", "", 1⟩]) = true :=
  c9_ignore_poisoning default_office_config default_state_config _ _
    (List.mem_singleton.mpr rfl) (by simp [default_state_config])

/-- Claim C6: with fewer than 2 recorded events the calculator returns the
well-defined empty record; with 2 or more events but a poisoned
(`should_ignore`) stack it returns the ignored record; both records carry
all-zero numeric fields and explicit `should_ignore` / `is_completed`
flags, so callers can tell "no data" from a genuine zero score. -/
theorem c6_degenerate_inputs (cfg : ScoringConfig) (wi : WorkItem)
    (hist : List RevisionRecord) (scfg : Option StateConfig) :
    (hist.length < 2 →
      calculate_fair_efficiency_metrics cfg wi hist scfg = empty_efficiency_metrics) ∧
    (¬ hist.length < 2 →
      should_ignore_work_item (create_stack_from_work_item hist
        (scfg.getD default_state_config) (office_config_of cfg)) = true →
      calculate_fair_efficiency_metrics cfg wi hist scfg = ignored_work_item_metrics) ∧
    empty_efficiency_metrics.active_time_hours = 0 ∧
    empty_efficiency_metrics.paused_time_hours = 0 ∧
    empty_efficiency_metrics.total_time_hours = 0 ∧
    empty_efficiency_metrics.estimated_time_hours = 0 ∧
    empty_efficiency_metrics.efficiency_percentage = 0 ∧
    empty_efficiency_metrics.fair_efficiency_score = 0 ∧
    empty_efficiency_metrics.delivery_score = 0 ∧
    empty_efficiency_metrics.completion_bonus = 0 ∧
    empty_efficiency_metrics.delivery_timing_bonus = 0 ∧
    empty_efficiency_metrics.days_ahead_behind = 0 ∧
    empty_efficiency_metrics.should_ignore = false ∧
    empty_efficiency_metrics.is_completed = false ∧
    ignored_work_item_metrics.active_time_hours = 0 ∧
    ignored_work_item_metrics.paused_time_hours = 0 ∧
    ignored_work_item_metrics.total_time_hours = 0 ∧
    ignored_work_item_metrics.estimated_time_hours = 0 ∧
    ignored_work_item_metrics.efficiency_percentage = 0 ∧
    ignored_work_item_metrics.fair_efficiency_score = 0 ∧
    ignored_work_item_metrics.delivery_score = 0 ∧
    ignored_work_item_metrics.completion_bonus = 0 ∧
    ignored_work_item_metrics.delivery_timing_bonus = 0 ∧
    ignored_work_item_metrics.days_ahead_behind = 0 ∧
    ignored_work_item_metrics.should_ignore = true ∧
    ignored_work_item_metrics.is_completed = false := by
  refine ⟨fun h => ?_, fun h hig => ?_, rfl, rfl, rfl, rfl, rfl, rfl, rfl, rfl, rfl, rfl,
    rfl, rfl, rfl, rfl, rfl, rfl, rfl, rfl, rfl, rfl, rfl, rfl, rfl, rfl⟩
  · unfold calculate_fair_efficiency_metrics
    rw [if_pos h]
  · unfold calculate_fair_efficiency_metrics
    rw [if_neg h]
    simp only [hig, eq_self_iff_true, if_true]

/-- Witness for C6 at concrete inputs: the empty history yields the empty
record, and a two-event `Removed` history yields the ignored record. -/
theorem c6_degenerate_inputs_witness :
    calculate_fair_efficiency_metrics default_scoring_config wi_c1 [] none
      = empty_efficiency_metrics ∧
    calculate_fair_efficiency_metrics default_scoring_config wi_c1 hist_c6 none
      = ignored_work_item_metrics := by
  have hig : should_ignore_work_item (create_stack_from_work_item hist_c6
      ((none : Option StateConfig).getD default_state_config)
      (office_config_of default_scoring_config)) = true := by
    have hsort : hist_c6.mergeSort (fun a b => decide (a.revision ≤ b.revision)) = hist_c6 :=
      List.mergeSort_of_sorted (by decide)
    simp only [create_stack_from_work_item, from_revision_history, hsort, Option.getD]
    simp only [hist_c6, List.foldl_cons, List.foldl_nil, revision_step, push_state,
      init_stack, default_state_config, office_config_of, default_scoring_config,
      should_ignore_work_item, List.mem_cons, List.not_mem_nil, String.reduceEq,
      or_false, false_or, or_true, true_or, reduceIte, reduceCtorEq,
      and_true, true_and, and_false, false_and, if_true, if_false]
  exact ⟨(c6_degenerate_inputs default_scoring_config wi_c1 [] none).1 (by decide),
    (c6_degenerate_inputs default_scoring_config wi_c1 hist_c6 none).2.1 (by decide) hig⟩

/-- C3's injected state configuration: a completion set (`Accepted`) that
differs from the hardcoded `['closed', 'done', 'resolved']` list. -/
def sc_c3 : StateConfig :=
  { productive_states := ["Active"]
    pause_stopper_states := []
    completion_states := ["Accepted"]
    ignored_states := [] }

/-- C3's work item: currently in `Accepted`, estimated at 8 hours. -/
def wi_c3 : WorkItem :=
  { state := "Accepted", original_estimate := some 8, start_date := none,
    target_date := none, closed_date := none, work_item_type := "Task" }

/-- C3's event sequence: `Active(Mon 09:00) -> Accepted(Mon 17:00)`. -/
def hist_c3 : List RevisionRecord :=
  [ ⟨1, some ⟨0, 540⟩, "Active", "", ""⟩, ⟨2, some ⟨0, 1020⟩, "Accepted", "", ""⟩ ]

set_option maxHeartbeats 1600000 in
/-- Counterexample to claim C3 as stated: `Accepted` is in the injected
configuration's completion set and the estimate is 8 hours, yet the
completion bonus is 0, not `8 * 0.20 = 1.6` — the bonus check uses the
hardcoded lowercase list, not the configured completion set. -/
theorem c3_counterexample :
    "Accepted" ∈ sc_c3.completion_states ∧
    (calculate_fair_efficiency_metrics default_scoring_config wi_c3 hist_c3
      (some sc_c3)).estimated_time_hours = 8 ∧
    (calculate_fair_efficiency_metrics default_scoring_config wi_c3 hist_c3
      (some sc_c3)).completion_bonus = 0 ∧
    (0 : ℚ) ≠ 8 * (1/5) := by
  have hsort : hist_c3.mergeSort (fun a b => decide (a.revision ≤ b.revision)) = hist_c3 :=
    List.mergeSort_of_sorted (by decide)
  refine ⟨by simp [sc_c3], ?_, ?_, by norm_num⟩ <;>
  · simp only [calculate_fair_efficiency_metrics, create_stack_from_work_item,
      from_revision_history, hsort, office_config_of, Option.getD]
    simp only [hist_c3, wi_c3, sc_c3, List.foldl_cons, List.foldl_nil, revision_step,
      push_state, close_current_interval, init_stack, default_scoring_config,
      should_ignore_work_item, get_total_productive_hours, get_total_paused_hours,
      get_total_time_all_states, get_pattern_summary, acc_sum,
      calculate_estimated_time_from_work_item, calculate_delivery_timing,
      show py_lower "Accepted" = "accepted" from rfl,
      List.length_cons, List.length_nil, List.mem_cons, List.not_mem_nil, String.reduceEq,
      Option.map, or_false, false_or, or_true, true_or, reduceIte, reduceCtorEq,
      and_true, true_and, and_false, false_and, if_true, if_false,
      Bool.false_eq_true, Bool.true_eq_false]
    try norm_num only [calculate_time_in_state, apply_timeframe_filtering,
      calculate_business_hours_in_period, business_hours_sum, day_contribution,
      calculate_office_hours_in_day, acc_add, acc_sum, update_last_time, round2,
      LocalDT.toMin, List.mem_cons, List.not_mem_nil, String.reduceEq, Finset.Icc_self,
      Finset.sum_singleton, or_false, false_or, or_true, true_or, and_true, true_and,
      and_false, false_and, if_true, if_false, reduceIte, min_def, max_def, reduceCtorEq,
      Bool.false_eq_true, Bool.true_eq_false, not_false_iff]

/-- Claim C3 as amended: for a non-degenerate, non-ignored history the
completion bonus is `estimate * completion_bonus_percentage` exactly when
the lowercased work-item state is in the hardcoded list
`['closed', 'done', 'resolved']`, and 0 otherwise — the injected
configuration's completion set plays no role in the bonus. -/
theorem c3_amended (cfg : ScoringConfig) (wi : WorkItem) (hist : List RevisionRecord)
    (scfg : Option StateConfig) (h : ¬ hist.length < 2)
    (hig : should_ignore_work_item (create_stack_from_work_item hist
      (scfg.getD default_state_config) (office_config_of cfg)) = false) :
    (calculate_fair_efficiency_metrics cfg wi hist scfg).completion_bonus =
      round2 (if py_lower wi.state ∈ ["closed", "done", "resolved"] then
        calculate_estimated_time_from_work_item cfg wi * cfg.completion_bonus_percentage
      else 0) := by
  unfold calculate_fair_efficiency_metrics
  rw [if_neg h]
  simp only [hig, Bool.false_eq_true, if_false]

/-- Witness for the amended C3 at a concrete input: the `Accepted` item
gets bonus `round2 0 = 0` because `accepted` is not in the hardcoded
list, though it is in the injected completion set. -/
theorem c3_amended_witness :
    (calculate_fair_efficiency_metrics default_scoring_config wi_c3 hist_c3
      (some sc_c3)).completion_bonus =
      round2 (if py_lower wi_c3.state ∈ ["closed", "done", "resolved"] then
        calculate_estimated_time_from_work_item default_scoring_config wi_c3
          * default_scoring_config.completion_bonus_percentage
      else 0) := by
  have hig : should_ignore_work_item (create_stack_from_work_item hist_c3
      ((some sc_c3).getD default_state_config)
      (office_config_of default_scoring_config)) = false := by
    have hsort : hist_c3.mergeSort (fun a b => decide (a.revision ≤ b.revision)) = hist_c3 :=
      List.mergeSort_of_sorted (by decide)
    simp only [create_stack_from_work_item, from_revision_history, hsort, Option.getD]
    simp only [hist_c3, sc_c3, List.foldl_cons, List.foldl_nil, revision_step, push_state,
      close_current_interval, init_stack, office_config_of, default_scoring_config,
      should_ignore_work_item, List.mem_cons, List.not_mem_nil, String.reduceEq,
      or_false, false_or, or_true, true_or, reduceIte, reduceCtorEq,
      and_true, true_and, and_false, false_and, if_true, if_false,
      Bool.false_eq_true, Bool.true_eq_false]
  exact c3_amended default_scoring_config wi_c3 hist_c3 (some sc_c3) (by decide) hig

/-- C4's counterexample item: carries exactly the ignored record. -/
def item_c4 : DeveloperWorkItem :=
  { state := "Removed", work_item_type := "Task", project_name := "P",
    efficiency := some ignored_work_item_metrics }

/-- Counterexample to claim C4 as stated: a developer whose single item
carries the ignored record gets `items_with_efficiency = 1` (the record's
truthy `should_ignore` flag passes the `any(values)` check) and an
on-time-delivery rate of 100% — the ignored record does contribute. -/
theorem c4_counterexample :
    (developer_metrics_loop [item_c4]).items_with_efficiency = 1 ∧
    (calculate_developer_metrics default_scoring_config [item_c4]
      none).on_time_delivery_percentage = 100 := by
  have htruthy : any_values_truthy ignored_work_item_metrics = true := by
    simp only [any_values_truthy, ignored_work_item_metrics, empty_efficiency_metrics,
      stack_summary_truthy, Bool.or_true, Bool.true_or]
  have hloop : developer_metrics_loop [item_c4] =
      { init_developer_acc with
        items_with_efficiency := 1
        on_time_count := 1
        total_delivery_score := 0
        work_item_types := ["Task"]
        projects := ["P"]
        delivery_timing_counts := { init_developer_acc.delivery_timing_counts with
          on_time := 1 } } := by
    simp only [developer_metrics_loop, List.foldl_cons, List.foldl_nil,
      developer_item_step, item_c4]
    rw [htruthy]
    simp only [init_developer_acc, set_insert, ignored_work_item_metrics,
      empty_efficiency_metrics, show py_lower "Removed" = "removed" from rfl,
      List.mem_cons, List.not_mem_nil, String.reduceEq,
      or_false, false_or, or_true, true_or, reduceIte, reduceCtorEq,
      and_true, true_and, and_false, false_and, if_true, if_false,
      Bool.false_eq_true, Bool.true_eq_false]
    norm_num
  refine ⟨by rw [hloop], ?_⟩
  unfold calculate_developer_metrics
  rw [if_neg (by simp [item_c4])]
  rw [hloop]
  norm_num [round2, calculate_developer_score]

/-- Claim C4 as amended: an item with a missing efficiency dict or the
all-falsy empty record contributes nothing to `items_with_efficiency`,
the on-time count, the fair-efficiency and delivery-score totals, or the
reopened count; but an item carrying the ignored record (truthy
`should_ignore`, non-empty `stack_summary`) is counted in
`items_with_efficiency` (contributing zeros to the sums and counting as
on-time). -/
theorem c4_amended (acc : DeveloperAcc) (item : DeveloperWorkItem) :
    (item.efficiency = none ∨ item.efficiency = some empty_efficiency_metrics →
      (developer_item_step acc item).items_with_efficiency = acc.items_with_efficiency ∧
      (developer_item_step acc item).on_time_count = acc.on_time_count ∧
      (developer_item_step acc item).total_fair_efficiency = acc.total_fair_efficiency ∧
      (developer_item_step acc item).total_delivery_score = acc.total_delivery_score ∧
      (developer_item_step acc item).reopened_items = acc.reopened_items) ∧
    (item.efficiency = some ignored_work_item_metrics →
      (developer_item_step acc item).items_with_efficiency
        = acc.items_with_efficiency + 1) := by
  have hempty : any_values_truthy empty_efficiency_metrics = false := by
    simp [any_values_truthy, empty_efficiency_metrics, stack_summary_truthy]
  have hign : any_values_truthy ignored_work_item_metrics = true := by
    simp only [any_values_truthy, ignored_work_item_metrics, empty_efficiency_metrics,
      stack_summary_truthy, Bool.or_true, Bool.true_or]
  constructor
  · rintro (h | h) <;>
    · unfold developer_item_step
      rw [h]
      simp only [hempty, Bool.false_eq_true, if_false,
        apply_ite DeveloperAcc.items_with_efficiency,
        apply_ite DeveloperAcc.on_time_count,
        apply_ite DeveloperAcc.total_fair_efficiency,
        apply_ite DeveloperAcc.total_delivery_score,
        apply_ite DeveloperAcc.reopened_items]
      simp
  · intro h
    unfold developer_item_step
    rw [h]
    simp only [hign, if_true]
    simp only [ignored_work_item_metrics, empty_efficiency_metrics]
    norm_num [apply_ite DeveloperAcc.items_with_efficiency]

/-- Witness for the amended C4 at concrete inputs: an empty-record item
leaves the count unchanged; the ignored-record item increments it. -/
theorem c4_amended_witness :
    (developer_item_step init_developer_acc
      { state := "New", work_item_type := "Task", project_name := "P",
        efficiency := some empty_efficiency_metrics }).items_with_efficiency
      = init_developer_acc.items_with_efficiency ∧
    (developer_item_step init_developer_acc item_c4).items_with_efficiency
      = init_developer_acc.items_with_efficiency + 1 :=
  ⟨((c4_amended init_developer_acc _).1 (Or.inr rfl)).1,
   (c4_amended init_developer_acc item_c4).2 rfl⟩

/-- Claim C10: `from_revision_history` sorts by revision number before
replaying, so for revision lists with pairwise-distinct revision numbers
every permutation of the list produces an identical stack (same
accumulators, flags and pattern summary — the whole record). -/
theorem c10_sort_determinism (office : OfficeConfig) (sc : StateConfig)
    (l1 l2 : List RevisionRecord) (hperm : l1.Perm l2)
    (hnd : l1.Pairwise (fun a b => a.revision ≠ b.revision)) :
    from_revision_history office sc l1 = from_revision_history office sc l2 := by
  suffices hs : l1.mergeSort (fun a b => decide (a.revision ≤ b.revision))
      = l2.mergeSort (fun a b => decide (a.revision ≤ b.revision)) by
    unfold from_revision_history
    rw [hs]
  have htrans : ∀ a b c : RevisionRecord,
      decide (a.revision ≤ b.revision) = true → decide (b.revision ≤ c.revision) = true →
      decide (a.revision ≤ c.revision) = true := by
    intro a b c hab hbc
    simp only [decide_eq_true_eq] at hab hbc ⊢
    omega
  have htotal : ∀ a b : RevisionRecord,
      (decide (a.revision ≤ b.revision) || decide (b.revision ≤ a.revision)) = true := by
    intro a b
    simpa using Nat.le_total a.revision b.revision
  have h1 := List.sorted_mergeSort htrans htotal l1
  have h2 := List.sorted_mergeSort htrans htotal l2
  have hp1 := List.mergeSort_perm l1 (fun a b => decide (a.revision ≤ b.revision))
  have hp2 := List.mergeSort_perm l2 (fun a b => decide (a.revision ≤ b.revision))
  have hsymm : ∀ {x y : RevisionRecord},
      x.revision ≠ y.revision → y.revision ≠ x.revision := fun h => h.symm
  have hnd1 : (l1.mergeSort (fun a b => decide (a.revision ≤ b.revision))).Pairwise
      (fun a b => a.revision ≠ b.revision) :=
    (List.Perm.pairwise_iff hsymm hp1).mpr hnd
  have hnd2 : (l2.mergeSort (fun a b => decide (a.revision ≤ b.revision))).Pairwise
      (fun a b => a.revision ≠ b.revision) :=
    (List.Perm.pairwise_iff hsymm (hp2.trans hperm.symm)).mpr hnd
  have hstrict1 : (l1.mergeSort (fun a b => decide (a.revision ≤ b.revision))).Pairwise
      (fun a b => a.revision < b.revision) :=
    (h1.and hnd1).imp (fun hab => lt_of_le_of_ne (by simpa using hab.1) hab.2)
  have hstrict2 : (l2.mergeSort (fun a b => decide (a.revision ≤ b.revision))).Pairwise
      (fun a b => a.revision < b.revision) :=
    (h2.and hnd2).imp (fun hab => lt_of_le_of_ne (by simpa using hab.1) hab.2)
  haveI : IsAntisymm RevisionRecord (fun a b => a.revision < b.revision) :=
    ⟨fun a b hab hba => absurd (hab.trans hba) (lt_irrefl _)⟩
  exact List.eq_of_perm_of_sorted (hp1.trans (hperm.trans hp2.symm)) hstrict1 hstrict2

/-- Witness for C10 at a concrete input: swapping a two-revision history
leaves the resulting stack unchanged. -/
theorem c10_sort_determinism_witness :
    from_revision_history default_office_config default_state_config
      [⟨2, some ⟨0, 1020⟩, "Closed", "", ""⟩, ⟨1, some ⟨0, 540⟩, "Active", "", ""⟩]
    = from_revision_history default_office_config default_state_config
      [⟨1, some ⟨0, 540⟩, "Active", "", ""⟩, ⟨2, some ⟨0, 1020⟩, "Closed", "", ""⟩] :=
  c10_sort_determinism default_office_config default_state_config _ _
    (List.Perm.swap _ _ _) (by simp)

lemma cast_div_le_eight (x : ℕ) (h : x ≤ 480) : ((x : ℕ) : ℚ) / 60 ≤ 8 := by
  rw [div_le_iff (by norm_num : (0:ℚ) < 60)]
  have : ((x : ℕ) : ℚ) ≤ 480 := by exact_mod_cast h
  linarith

lemma cast_sub_split (a b c : ℕ) (hab : a ≤ b) (hbc : b ≤ c) :
    ((c - a : ℕ) : ℚ) / 60 = ((b - a : ℕ) : ℚ) / 60 + ((c - b : ℕ) : ℚ) / 60 := by
  rw [Nat.cast_sub (hab.trans hbc), Nat.cast_sub hab, Nat.cast_sub hbc]
  ring

lemma day_contribution_both (s e : LocalDT) (d : ℕ) (hds : d = s.day) (hde : d = e.day)
    (hw : d % 7 < 5) (h1 : 540 ≤ s.minute) (h2 : s.minute ≤ e.minute)
    (h3 : e.minute ≤ 1020) :
    day_contribution default_office_config s e false d
      = ((e.minute - s.minute : ℕ) : ℚ) / 60 := by
  simp only [day_contribution, calculate_office_hours_in_day, default_office_config]
  rw [if_neg (by omega : ¬ d % 7 ≥ 5), if_pos hds, if_pos hde,
    show (9 * 60 : ℕ) = 540 from rfl, show (17 * 60 : ℕ) = 1020 from rfl,
    max_eq_left h1, min_eq_left h3]
  by_cases hlt : s.minute < e.minute
  · rw [if_pos hlt, if_pos hlt, if_neg (by simp : ¬ false = true),
      min_eq_left (cast_div_le_eight _ (by omega))]
  · rw [if_neg hlt, show e.minute - s.minute = 0 from by omega]
    norm_num

lemma day_contribution_start_only (s e : LocalDT) (d : ℕ) (hds : d = s.day)
    (hde : d ≠ e.day) (hw : d % 7 < 5) (h1 : 540 ≤ s.minute) (h3 : s.minute ≤ 1020) :
    day_contribution default_office_config s e false d
      = ((1020 - s.minute : ℕ) : ℚ) / 60 := by
  simp only [day_contribution, calculate_office_hours_in_day, default_office_config]
  rw [if_neg (by omega : ¬ d % 7 ≥ 5), if_pos hds, if_neg hde,
    show (9 * 60 : ℕ) = 540 from rfl, show (17 * 60 : ℕ) = 1020 from rfl,
    max_eq_left h1, min_eq_right (by omega : (1020 : ℕ) ≤ 1440),
    if_pos (by omega : s.minute < 1440)]
  by_cases hlt : s.minute < 1020
  · rw [if_pos hlt, if_neg (by simp : ¬ false = true),
      min_eq_left (cast_div_le_eight _ (by omega))]
  · rw [if_neg hlt, show (1020 : ℕ) - s.minute = 0 from by omega]
    norm_num

lemma day_contribution_end_only (s e : LocalDT) (d : ℕ) (hds : d ≠ s.day)
    (hde : d = e.day) (hw : d % 7 < 5) (h1 : 540 ≤ e.minute) (h3 : e.minute ≤ 1020) :
    day_contribution default_office_config s e false d
      = ((e.minute - 540 : ℕ) : ℚ) / 60 := by
  simp only [day_contribution, calculate_office_hours_in_day, default_office_config]
  rw [if_neg (by omega : ¬ d % 7 ≥ 5), if_neg hds, if_pos hde,
    show (9 * 60 : ℕ) = 540 from rfl, show (17 * 60 : ℕ) = 1020 from rfl,
    max_eq_right (by omega : (0 : ℕ) ≤ 540), min_eq_left h3,
    if_pos (by omega : 0 < e.minute)]
  by_cases hlt : 540 < e.minute
  · rw [if_pos hlt, if_neg (by simp : ¬ false = true),
      min_eq_left (cast_div_le_eight _ (by omega))]
  · rw [if_neg hlt, show e.minute - 540 = 0 from by omega]
    norm_num

lemma day_contribution_interior (s e : LocalDT) (d : ℕ) (hds : d ≠ s.day)
    (hde : d ≠ e.day) (hw : d % 7 < 5) :
    day_contribution default_office_config s e false d = 8 := by
  simp only [day_contribution, calculate_office_hours_in_day, default_office_config]
  rw [if_neg (by omega : ¬ d % 7 ≥ 5), if_neg hds, if_neg hde,
    show (9 * 60 : ℕ) = 540 from rfl, show (17 * 60 : ℕ) = 1020 from rfl,
    max_eq_right (by omega : (0 : ℕ) ≤ 540), min_eq_right (by omega : (1020 : ℕ) ≤ 1440),
    if_pos (by omega : (0 : ℕ) < 1440), if_pos (by omega : (540 : ℕ) < 1020),
    if_neg (by simp : ¬ false = true)]
  norm_num

/-- Counterexample to claim C7 as stated: for the instants Mon 09:00,
09:01, 09:02 (all on a business day, within office hours, under the daily
cap) the rounded durations are 0.02 + 0.02 = 0.04 on the right but 0.03 on
the left — the final `round(_, 2)` breaks exact additivity. -/
theorem c7_counterexample :
    calculate_business_hours_in_period default_office_config ⟨0, 540⟩ ⟨0, 542⟩ false ≠
      calculate_business_hours_in_period default_office_config ⟨0, 540⟩ ⟨0, 541⟩ false +
      calculate_business_hours_in_period default_office_config ⟨0, 541⟩ ⟨0, 542⟩ false := by
  norm_num [calculate_business_hours_in_period, business_hours_sum, day_contribution,
    calculate_office_hours_in_day, round2, LocalDT.toMin, default_office_config,
    Finset.Icc_self, Finset.sum_singleton, min_def, max_def]

/-- Claim C7 as amended: for instants t1 < t2 < t3, all on business days
and within office hours (so also under the daily cap), the business-hours
duration is additive before the final two-decimal rounding:
the un-rounded day-loop totals satisfy
`sum(t1,t3) = sum(t1,t2) + sum(t2,t3)`. -/
theorem c7_amended (t1 t2 t3 : LocalDT)
    (h12 : t1.toMin < t2.toMin) (h23 : t2.toMin < t3.toMin)
    (hw1 : t1.day % 7 < 5) (hw2 : t2.day % 7 < 5) (hw3 : t3.day % 7 < 5)
    (hs1 : 540 ≤ t1.minute) (he1 : t1.minute ≤ 1020)
    (hs2 : 540 ≤ t2.minute) (he2 : t2.minute ≤ 1020)
    (hs3 : 540 ≤ t3.minute) (he3 : t3.minute ≤ 1020) :
    business_hours_sum default_office_config t1 t3 false =
      business_hours_sum default_office_config t1 t2 false +
      business_hours_sum default_office_config t2 t3 false := by
  simp only [LocalDT.toMin] at h12 h23
  have hd12 : t1.day ≤ t2.day := by omega
  have hd23 : t2.day ≤ t3.day := by omega
  unfold business_hours_sum
  rw [show Finset.Icc t1.day t3.day = Finset.Ico t1.day (t3.day + 1) from
      (Nat.Ico_succ_right _ _).symm,
    show Finset.Icc t1.day t2.day = Finset.Ico t1.day (t2.day + 1) from
      (Nat.Ico_succ_right _ _).symm,
    show Finset.Icc t2.day t3.day = Finset.Ico t2.day (t3.day + 1) from
      (Nat.Ico_succ_right _ _).symm,
    ← Finset.sum_Ico_consecutive _ hd12 (by omega : t2.day ≤ t3.day + 1),
    Finset.sum_eq_sum_Ico_succ_bot (by omega : t2.day < t3.day + 1),
    Finset.sum_Ico_succ_top hd12,
    Finset.sum_eq_sum_Ico_succ_bot (by omega : t2.day < t3.day + 1)
      (day_contribution default_office_config t2 t3 false)]
  have hsum1 : ∑ d ∈ Finset.Ico t1.day t2.day,
      day_contribution default_office_config t1 t3 false d
      = ∑ d ∈ Finset.Ico t1.day t2.day,
        day_contribution default_office_config t1 t2 false d := by
    refine Finset.sum_congr rfl (fun d hd => ?_)
    have hmem := Finset.mem_Ico.mp hd
    have hne2 : d ≠ t2.day := by omega
    have hne3 : d ≠ t3.day := by omega
    simp only [day_contribution]
    rw [if_neg hne3, if_neg hne2]
  have hsum2 : ∑ d ∈ Finset.Ico (t2.day + 1) (t3.day + 1),
      day_contribution default_office_config t1 t3 false d
      = ∑ d ∈ Finset.Ico (t2.day + 1) (t3.day + 1),
        day_contribution default_office_config t2 t3 false d := by
    refine Finset.sum_congr rfl (fun d hd => ?_)
    have hmem := Finset.mem_Ico.mp hd
    have hne1 : d ≠ t1.day := by omega
    have hne2 : d ≠ t2.day := by omega
    simp only [day_contribution]
    rw [if_neg hne1, if_neg hne2]
  have hcenter : day_contribution default_office_config t1 t3 false t2.day
      = day_contribution default_office_config t1 t2 false t2.day
        + day_contribution default_office_config t2 t3 false t2.day := by
    by_cases h12d : t1.day = t2.day <;> by_cases h23d : t2.day = t3.day
    · rw [day_contribution_both t1 t3 t2.day h12d.symm h23d hw2 hs1 (by omega) he3,
        day_contribution_both t1 t2 t2.day h12d.symm rfl hw2 hs1 (by omega) he2,
        day_contribution_both t2 t3 t2.day rfl h23d hw2 hs2 (by omega) he3]
      exact cast_sub_split t1.minute t2.minute t3.minute (by omega) (by omega)
    · rw [day_contribution_start_only t1 t3 t2.day h12d.symm h23d hw2 hs1 he1,
        day_contribution_both t1 t2 t2.day h12d.symm rfl hw2 hs1 (by omega) he2,
        day_contribution_start_only t2 t3 t2.day rfl h23d hw2 hs2 he2]
      exact cast_sub_split t1.minute t2.minute 1020 (by omega) he2
    · rw [day_contribution_end_only t1 t3 t2.day (fun h => h12d h.symm) h23d hw2 hs3 he3,
        day_contribution_end_only t1 t2 t2.day (fun h => h12d h.symm) rfl hw2 hs2 he2,
        day_contribution_both t2 t3 t2.day rfl h23d hw2 hs2 (by omega) he3]
      exact cast_sub_split 540 t2.minute t3.minute hs2 (by omega)
    · rw [day_contribution_interior t1 t3 t2.day (fun h => h12d h.symm) h23d hw2,
        day_contribution_end_only t1 t2 t2.day (fun h => h12d h.symm) rfl hw2 hs2 he2,
        day_contribution_start_only t2 t3 t2.day rfl h23d hw2 hs2 he2]
      have := cast_sub_split 540 t2.minute 1020 hs2 he2
      rw [show ((1020 - 540 : ℕ) : ℚ) = 480 from by norm_num] at this
      rw [← this]
      norm_num
  rw [hsum1, hsum2, hcenter]
  ring

/-- Witness for the amended C7 at concrete instants Mon 09:00 < 10:00 <
11:00. -/
theorem c7_amended_witness :
    business_hours_sum default_office_config ⟨0, 540⟩ ⟨0, 660⟩ false =
      business_hours_sum default_office_config ⟨0, 540⟩ ⟨0, 600⟩ false +
      business_hours_sum default_office_config ⟨0, 600⟩ ⟨0, 660⟩ false :=
  c7_amended ⟨0, 540⟩ ⟨0, 600⟩ ⟨0, 660⟩ (by norm_num [LocalDT.toMin])
    (by norm_num [LocalDT.toMin]) (by norm_num) (by norm_num) (by norm_num)
    (by norm_num) (by norm_num) (by norm_num) (by norm_num) (by norm_num) (by norm_num)

lemma round2_nonneg (q : ℚ) (h : 0 ≤ q) : 0 ≤ round2 q := by
  unfold round2
  have hf : (0:ℤ) ≤ ⌊q * 100 + 1/2⌋ := Int.floor_nonneg.mpr (by positivity)
  exact div_nonneg (by exact_mod_cast hf) (by norm_num)

lemma round2_mono (a b : ℚ) (h : a ≤ b) : round2 a ≤ round2 b := by
  unfold round2
  have hf : ⌊a * 100 + 1/2⌋ ≤ ⌊b * 100 + 1/2⌋ := Int.floor_le_floor (by linarith)
  exact (div_le_div_right (by norm_num : (0:ℚ) < 100)).mpr (by exact_mod_cast hf)

lemma office_hours_in_day_nonneg (cfg : OfficeConfig) (ds de : ℕ) :
    0 ≤ calculate_office_hours_in_day cfg ds de := by
  simp only [calculate_office_hours_in_day]
  split_ifs
  · positivity
  · exact le_rfl

lemma day_contribution_nonneg (cfg : OfficeConfig) (s e : LocalDT) (b : Bool) (d : ℕ)
    (h : 0 ≤ cfg.max_hours_per_day) : 0 ≤ day_contribution cfg s e b d := by
  simp only [day_contribution]
  by_cases hw : d % 7 ≥ 5
  · rw [if_pos hw]
  · rw [if_neg hw]
    by_cases hlt : (if d = s.day then s.minute else 0) < (if d = e.day then e.minute else 1440)
    · rw [if_pos hlt]
      cases b
      · rw [if_neg (by simp : ¬ (false = true))]
        exact le_min (office_hours_in_day_nonneg cfg _ _) h
      · rw [if_pos rfl]
        exact office_hours_in_day_nonneg cfg _ _
    · rw [if_neg hlt]

lemma business_hours_period_nonneg (cfg : OfficeConfig) (s e : LocalDT) (b : Bool)
    (h : 0 ≤ cfg.max_hours_per_day) :
    0 ≤ calculate_business_hours_in_period cfg s e b := by
  simp only [calculate_business_hours_in_period, business_hours_sum]
  split_ifs
  · exact round2_nonneg _ (Finset.sum_nonneg fun d _ => day_contribution_nonneg cfg s e b d h)
  · exact le_rfl

lemma calculate_time_in_state_nonneg (st : WorkItemStateStack) (s e : LocalDT)
    (state : String) (h : 0 ≤ st.office.max_hours_per_day) :
    0 ≤ calculate_time_in_state st s e state := by
  simp only [calculate_time_in_state]
  split_ifs
  · exact le_rfl
  · exact business_hours_period_nonneg _ _ _ _ h
  · exact business_hours_period_nonneg _ _ _ _ h

lemma close_current_interval_office (st : WorkItemStateStack) (s : String) (ts : LocalDT) :
    (close_current_interval st s ts).office = st.office := by
  unfold close_current_interval
  split <;> simp [apply_ite WorkItemStateStack.office]

lemma close_total_productive_nonneg (st : WorkItemStateStack) (s : String) (ts : LocalDT)
    (hcap : 0 ≤ st.office.max_hours_per_day) (h : 0 ≤ st.total_productive_hours) :
    0 ≤ (close_current_interval st s ts).total_productive_hours := by
  unfold close_current_interval
  split
  · simp only [apply_ite WorkItemStateStack.total_productive_hours]
    split_ifs <;>
      first
        | exact h
        | exact add_nonneg h (calculate_time_in_state_nonneg _ _ _ _ hcap)
  · exact h

lemma push_state_office (st : WorkItemStateStack) (s : String) (ts : LocalDT)
    (r c : String) (n : ℕ) : (push_state st s ts r c n).office = st.office := by
  unfold push_state
  by_cases hig : s ∈ st.ignored_states
  · simp [hig]
  · by_cases hc : s ∈ st.completion_states <;>
      simp [hig, hc, close_current_interval_office]

lemma push_state_total_productive_nonneg (st : WorkItemStateStack) (s : String)
    (ts : LocalDT) (r c : String) (n : ℕ) (hcap : 0 ≤ st.office.max_hours_per_day)
    (h : 0 ≤ st.total_productive_hours) :
    0 ≤ (push_state st s ts r c n).total_productive_hours := by
  unfold push_state
  by_cases hig : s ∈ st.ignored_states
  · rw [if_pos hig]
    exact h
  · by_cases hc : s ∈ st.completion_states
    · simp only [if_neg hig, if_pos hc]
      exact close_total_productive_nonneg _ _ _ hcap h
    · simp only [if_neg hig, if_neg hc]
      exact close_total_productive_nonneg _ _ _ hcap h

lemma revision_step_office (st : WorkItemStateStack) (r : RevisionRecord) :
    (revision_step st r).office = st.office := by
  unfold revision_step
  split
  · exact push_state_office _ _ _ _ _ _
  · rfl

lemma revision_step_total_productive_nonneg (st : WorkItemStateStack) (r : RevisionRecord)
    (hcap : 0 ≤ st.office.max_hours_per_day) (h : 0 ≤ st.total_productive_hours) :
    0 ≤ (revision_step st r).total_productive_hours := by
  unfold revision_step
  split
  · exact push_state_total_productive_nonneg _ _ _ _ _ _ hcap h
  · exact h

lemma foldl_revision_productive_nonneg (l : List RevisionRecord) :
    ∀ st : WorkItemStateStack, 0 ≤ st.office.max_hours_per_day →
      0 ≤ st.total_productive_hours →
      0 ≤ (l.foldl revision_step st).total_productive_hours := by
  induction l with
  | nil => exact fun st _ h => h
  | cons r rest ih =>
    intro st hcap h
    show 0 ≤ (rest.foldl revision_step (revision_step st r)).total_productive_hours
    exact ih _ (by rw [revision_step_office]; exact hcap)
      (revision_step_total_productive_nonneg st r hcap h)

lemma from_revision_history_productive_nonneg (office : OfficeConfig) (sc : StateConfig)
    (l : List RevisionRecord) (hcap : 0 ≤ office.max_hours_per_day) :
    0 ≤ (from_revision_history office sc l).total_productive_hours := by
  unfold from_revision_history
  exact foldl_revision_productive_nonneg _ _ hcap le_rfl

lemma delivery_timing_bonus_nonneg (wi : WorkItem) :
    0 ≤ (calculate_delivery_timing default_scoring_config wi).timing_bonus_hours := by
  simp only [calculate_delivery_timing]
  cases htd : wi.target_date with
  | none => exact le_rfl
  | some target =>
    cases hcd : wi.closed_date with
    | none => exact le_rfl
    | some closed =>
      simp only [calculate_early_delivery_bonus, calculate_late_delivery_penalty]
      split_ifs <;>
        first
          | exact le_rfl
          | exact mul_nonneg (abs_nonneg _) (by norm_num [default_scoring_config])

lemma delivery_mitigation_nonneg (wi : WorkItem) :
    0 ≤ (calculate_delivery_timing default_scoring_config wi).late_penalty_mitigation := by
  simp only [calculate_delivery_timing]
  cases htd : wi.target_date with
  | none => exact le_rfl
  | some target =>
    cases hcd : wi.closed_date with
    | none => exact le_rfl
    | some closed =>
      simp only [calculate_early_delivery_bonus, calculate_late_delivery_penalty]
      split_ifs <;> norm_num [default_scoring_config]

lemma estimated_time_pos (wi : WorkItem) :
    0 < calculate_estimated_time_from_work_item default_scoring_config wi := by
  have hfb : 0 < estimated_time_fallback default_scoring_config wi := by
    have hdef : 0 < default_hours_for_type default_scoring_config
        (py_lower wi.work_item_type) := by
      simp only [default_hours_for_type]
      split_ifs <;> norm_num [default_scoring_config]
    simp only [estimated_time_fallback]
    cases hsd : wi.start_date with
    | none => exact hdef
    | some s =>
      cases htd : wi.target_date with
      | none => exact hdef
      | some t => exact lt_of_lt_of_le (by norm_num) (le_max_right _ _)
  simp only [calculate_estimated_time_from_work_item]
  cases hoe : wi.original_estimate with
  | none => exact hfb
  | some v =>
    show 0 < if 0 < v then v else estimated_time_fallback default_scoring_config wi
    split_ifs with h
    · exact h
    · exact hfb

lemma score_bounds (num den cap : ℚ) (hnum : 0 ≤ num) (hden : 0 < den)
    (hcap0 : 0 ≤ cap) (hcap : round2 cap = cap) :
    0 ≤ round2 (if 0 < den then min (num / den * 100) cap else 0) ∧
    round2 (if 0 < den then min (num / den * 100) cap else 0) ≤ cap := by
  rw [if_pos hden]
  refine ⟨round2_nonneg _ (le_min (by positivity) hcap0), ?_⟩
  calc round2 (min (num / den * 100) cap) ≤ round2 cap :=
        round2_mono _ _ (min_le_right _ _)
    _ = cap := hcap

set_option maxHeartbeats 1600000 in
/-- Claim C2: for every work item, event history and state configuration
(default scoring config), the fair efficiency score lies between 0 and
`max_efficiency_cap` (150): clamped above by the cap, and never negative
since the numerator is non-negative and the denominator is positive (a
non-positive denominator would yield 0, which is also in range). -/
theorem c2_fair_efficiency_bounds (wi : WorkItem) (hist : List RevisionRecord)
    (scfg : Option StateConfig) :
    0 ≤ (calculate_fair_efficiency_metrics default_scoring_config wi hist
      scfg).fair_efficiency_score ∧
    (calculate_fair_efficiency_metrics default_scoring_config wi hist
      scfg).fair_efficiency_score ≤ default_scoring_config.max_efficiency_cap := by
  unfold calculate_fair_efficiency_metrics
  by_cases hlen : hist.length < 2
  · rw [if_pos hlen]
    constructor <;> norm_num [empty_efficiency_metrics, default_scoring_config]
  · rw [if_neg hlen]
    by_cases hig : should_ignore_work_item (create_stack_from_work_item hist
        (scfg.getD default_state_config) (office_config_of default_scoring_config)) = true
    · simp only [hig, if_true]
      constructor <;>
        norm_num [ignored_work_item_metrics, empty_efficiency_metrics,
          default_scoring_config]
    · have hig' : should_ignore_work_item (create_stack_from_work_item hist
          (scfg.getD default_state_config) (office_config_of default_scoring_config))
          = false := by
        rwa [Bool.not_eq_true] at hig
      simp only [hig', Bool.false_eq_true, if_false]
      refine score_bounds _ _ _ ?_ ?_ ?_ ?_
      · refine add_nonneg (add_nonneg ?_ ?_) (delivery_timing_bonus_nonneg wi)
        · exact from_revision_history_productive_nonneg _ _ _
            (by norm_num [office_config_of, default_scoring_config])
        · split_ifs
          · exact mul_nonneg (estimated_time_pos wi).le
              (by norm_num [default_scoring_config])
          · exact le_rfl
      · exact add_pos_of_pos_of_nonneg (estimated_time_pos wi)
          (delivery_mitigation_nonneg wi)
      · norm_num [default_scoring_config]
      · norm_num [default_scoring_config, round2]
